import Mathlib

/-!
Shallow embedding of the kiss-rpc correlation engine (src/index.ts).

Conventions of the embedding:
* JSON values are modelled by the inductive `Json`; numeric payloads are
  modelled as integers (the claims under study only involve integral ids,
  tags and codes).
* JavaScript `undefined` arising from out-of-range array indexing or a
  missing object key is modelled as `Option.none` at the access site.
* `JSON.parse` of the raw transport string is external builtin code; its
  outcome is passed to `parseMessage` as `Option Json` (`none` models a
  syntactically invalid document, on which `JSON.parse` throws).
* A JavaScript exception that is not a `KissRpcError` (e.g. the `TypeError`
  raised by reading a property of `null`) is modelled explicitly, because
  `fromTransport` distinguishes it from `KissRpcError`.
* `JSON.stringify` drops object keys whose value is `undefined`; the encoder
  for error objects therefore omits the `errorMessage` key when it is absent.
-/

inductive Json where
  | null
  | bool (b : Bool)
  | num (n : Int)
  | str (s : String)
  | arr (elems : List Json)
  | obj (fields : List (String × Json))

mutual

def Json.decEq : (a b : Json) → Decidable (a = b)
  | .null, .null => isTrue rfl
  | .bool a, .bool b =>
    match Bool.decEq a b with
    | isTrue h => isTrue (by rw [h])
    | isFalse h => isFalse (fun hh => h (by cases hh; rfl))
  | .num a, .num b =>
    match Int.decEq a b with
    | isTrue h => isTrue (by rw [h])
    | isFalse h => isFalse (fun hh => h (by cases hh; rfl))
  | .str a, .str b =>
    match String.decEq a b with
    | isTrue h => isTrue (by rw [h])
    | isFalse h => isFalse (fun hh => h (by cases hh; rfl))
  | .arr a, .arr b =>
    match Json.decEqList a b with
    | isTrue h => isTrue (by rw [h])
    | isFalse h => isFalse (fun hh => h (by cases hh; rfl))
  | .obj a, .obj b =>
    match Json.decEqFields a b with
    | isTrue h => isTrue (by rw [h])
    | isFalse h => isFalse (fun hh => h (by cases hh; rfl))
  | .null, .bool _ => isFalse (fun h => by cases h)
  | .null, .num _ => isFalse (fun h => by cases h)
  | .null, .str _ => isFalse (fun h => by cases h)
  | .null, .arr _ => isFalse (fun h => by cases h)
  | .null, .obj _ => isFalse (fun h => by cases h)
  | .bool _, .null => isFalse (fun h => by cases h)
  | .bool _, .num _ => isFalse (fun h => by cases h)
  | .bool _, .str _ => isFalse (fun h => by cases h)
  | .bool _, .arr _ => isFalse (fun h => by cases h)
  | .bool _, .obj _ => isFalse (fun h => by cases h)
  | .num _, .null => isFalse (fun h => by cases h)
  | .num _, .bool _ => isFalse (fun h => by cases h)
  | .num _, .str _ => isFalse (fun h => by cases h)
  | .num _, .arr _ => isFalse (fun h => by cases h)
  | .num _, .obj _ => isFalse (fun h => by cases h)
  | .str _, .null => isFalse (fun h => by cases h)
  | .str _, .bool _ => isFalse (fun h => by cases h)
  | .str _, .num _ => isFalse (fun h => by cases h)
  | .str _, .arr _ => isFalse (fun h => by cases h)
  | .str _, .obj _ => isFalse (fun h => by cases h)
  | .arr _, .null => isFalse (fun h => by cases h)
  | .arr _, .bool _ => isFalse (fun h => by cases h)
  | .arr _, .num _ => isFalse (fun h => by cases h)
  | .arr _, .str _ => isFalse (fun h => by cases h)
  | .arr _, .obj _ => isFalse (fun h => by cases h)
  | .obj _, .null => isFalse (fun h => by cases h)
  | .obj _, .bool _ => isFalse (fun h => by cases h)
  | .obj _, .num _ => isFalse (fun h => by cases h)
  | .obj _, .str _ => isFalse (fun h => by cases h)
  | .obj _, .arr _ => isFalse (fun h => by cases h)

def Json.decEqList : (a b : List Json) → Decidable (a = b)
  | [], [] => isTrue rfl
  | x :: xs, y :: ys =>
    match Json.decEq x y, Json.decEqList xs ys with
    | isTrue h1, isTrue h2 => isTrue (by rw [h1, h2])
    | isFalse h1, _ => isFalse (fun hh => h1 (by cases hh; rfl))
    | _, isFalse h2 => isFalse (fun hh => h2 (by cases hh; rfl))
  | [], _ :: _ => isFalse (fun h => by cases h)
  | _ :: _, [] => isFalse (fun h => by cases h)

def Json.decEqFields : (a b : List (String × Json)) → Decidable (a = b)
  | [], [] => isTrue rfl
  | (k1, v1) :: xs, (k2, v2) :: ys =>
    match String.decEq k1 k2, Json.decEq v1 v2, Json.decEqFields xs ys with
    | isTrue h1, isTrue h2, isTrue h3 => isTrue (by rw [h1, h2, h3])
    | isFalse h1, _, _ => isFalse (fun hh => h1 (by cases hh; rfl))
    | _, isFalse h2, _ => isFalse (fun hh => h2 (by cases hh; rfl))
    | _, _, isFalse h3 => isFalse (fun hh => h3 (by cases hh; rfl))
  | [], _ :: _ => isFalse (fun h => by cases h)
  | _ :: _, [] => isFalse (fun h => by cases h)

end

instance : DecidableEq Json := Json.decEq

namespace Json

/-- Lookup of an object key; `none` models JavaScript `undefined`. -/
def lookupField : List (String × Json) → String → Option Json
  | [], _ => none
  | (k, v) :: rest, key => if k = key then some v else lookupField rest key

end Json

/-- Model of the check `typeof x === 'number'` applied to a possibly
undefined value (array slot). -/
def jsIsNumber : Option Json → Bool
  | some (Json.num _) => true
  | _ => false

/-- Model of the check `typeof x === 'string'` applied to a possibly
undefined value. -/
def jsIsString : Option Json → Bool
  | some (Json.str _) => true
  | _ => false

/-- Model of the check `typeof x === 'object'`: in JavaScript this is true
for plain objects, arrays and `null`. -/
def jsIsObjectType : Option Json → Bool
  | some Json.null => true
  | some (Json.arr _) => true
  | some (Json.obj _) => true
  | _ => false

/-- Property reads `x.code` and `x.message` on the already
object-typed error slot of a candidate ErrorResponse.  The result `none`
models the source throwing a JavaScript `TypeError`: when the slot is
`null`, the guard `typeof message[2] !== 'object'` passes (since
`typeof null === 'object'`) and the read `message[2].code` throws.
Property reads on an array yield `undefined`, hence `false` there. -/
def checkErrorSlot : Option Json → Option Bool
  | some Json.null => none
  | some (Json.obj fields) =>
    some (jsIsNumber (Json.lookupField fields "code") &&
          jsIsString (Json.lookupField fields "message"))
  | some (Json.arr _) => some false
  | _ => none

/-- Embedding of `isMessage` (src/index.ts lines 120-147).  `some b` models
a normal boolean return; `none` models a thrown `TypeError` (see
`checkErrorSlot`). -/
def isMessage (message : Json) : Option Bool :=
  match message with
  | Json.arr xs =>
    if xs.length > 4 || xs.length < 2 then some false
    else
      match xs.get? 0 with
      | some (Json.num t) =>
        if t < 0 || t > 3 then some false
        else if t = 0 then
          -- Request: id must be a number, method a string
          some (jsIsNumber (xs.get? 1) && jsIsString (xs.get? 2))
        else if t = 2 then
          -- Response: id must be a number
          some (jsIsNumber (xs.get? 1))
        else if t = 3 then
          -- ErrorResponse: id a number, error an object with numeric code
          -- and string message
          if !jsIsNumber (xs.get? 1) then some false
          else if !jsIsObjectType (xs.get? 2) then some false
          else checkErrorSlot (xs.get? 2)
        else
          -- Notification: method must be a string
          some (jsIsString (xs.get? 1))
      | _ => some false
  | _ => some false

/-- One entry of the `KISS_RPC_ERRORS` catalogue. -/
structure ErrDef where
  code : Int
  message : String
  deriving DecidableEq

namespace KISS_RPC_ERRORS

def PARSE_ERROR : ErrDef :=
  ⟨1000, "Invalid JSON was received by the server. An error occurred on the server while parsing the JSON text."⟩

def INVALID_REQUEST : ErrDef :=
  ⟨1001, "Invalid Request. The JSON sent is not a valid Request object."⟩

def METHOD_NOT_FOUND : ErrDef :=
  ⟨1002, "Method not found. The method does not exist / is not available."⟩

def INTERNAL_ERROR : ErrDef :=
  ⟨1004, "Internal error. Internal JSON-RPC error."⟩

def REQUEST_TIMEOUT : ErrDef :=
  ⟨1005, "Request has timed-out"⟩

def GUARD_ERROR : ErrDef :=
  ⟨1006, "Guard error"⟩

def APPLICATION_ERROR : ErrDef :=
  ⟨1007, "Application error"⟩

def TRANSPORT_ERROR : ErrDef :=
  ⟨1008, "Underlying transport issue"⟩

end KISS_RPC_ERRORS

/-- Outcome of `parseMessage`: either the validated raw value, a thrown
`KissRpcError` (code and message), or a thrown non-`KissRpcError`
JavaScript exception. -/
inductive DecodeResult where
  | ok (message : Json)
  | rpcError (code : Int) (message : String)
  | jsError
  deriving DecidableEq

/-- Embedding of `parseMessage` (src/index.ts lines 200-217).  The argument
is the outcome of `JSON.parse`: `none` when the raw string is not valid
JSON (in which case `JSON.parse` throws and the catch block converts it to
`PARSE_ERROR`). -/
def parseMessage (parsed : Option Json) : DecodeResult :=
  match parsed with
  | none =>
    DecodeResult.rpcError KISS_RPC_ERRORS.PARSE_ERROR.code
      KISS_RPC_ERRORS.PARSE_ERROR.message
  | some message =>
    match isMessage message with
    | none => DecodeResult.jsError
    | some false =>
      DecodeResult.rpcError KISS_RPC_ERRORS.INVALID_REQUEST.code
        KISS_RPC_ERRORS.INVALID_REQUEST.message
    | some true => DecodeResult.ok message

/-- The error payload of an ErrorResponse (type `KissError`):
`errorMessage` is the optional detail field. -/
structure KissErr where
  code : Int
  message : String
  errorMessage : Option String
  deriving DecidableEq

/-- Typed view of the four wire shapes (types `KissRequest`,
`KissResponse`, `KissNotification`, `KissErrorResponse`). -/
inductive KissMessage where
  | request (id : Int) (method : String) (params : List Json)
  | response (id : Int) (result : Json)
  | notif (method : String) (params : List Json)
  | errorResponse (id : Int) (err : KissErr)
  deriving DecidableEq

/-- Wire encoding of the error object built by `createErrorResponse`:
`JSON.stringify` omits the `errorMessage` key when its value is
`undefined`. -/
def encodeErr (e : KissErr) : Json :=
  Json.obj ([("code", Json.num e.code), ("message", Json.str e.message)] ++
    (match e.errorMessage with
     | some s => [("errorMessage", Json.str s)]
     | none => []))

/-- The JSON array produced for a message by `JSON.stringify` in
`callToTransport` (wire layout, src/index.ts lines 1-4 and 40-45). -/
def encodeMessage : KissMessage → Json
  | KissMessage.request id method params =>
    Json.arr [Json.num 0, Json.num id, Json.str method, Json.arr params]
  | KissMessage.notif method params =>
    Json.arr [Json.num 1, Json.str method, Json.arr params]
  | KissMessage.response id result =>
    Json.arr [Json.num 2, Json.num id, result]
  | KissMessage.errorResponse id e =>
    Json.arr [Json.num 3, Json.num id, encodeErr e]

/-- Typed reading of a validated wire value, per the positional layout and
the accessors `getMessageType`, `getMessageId`, `getMessageMethod`,
`getMessageParams`, `getMessageResult`, `getMessageError`. -/
def decodeMessage : Json → Option KissMessage
  | Json.arr [Json.num 0, Json.num id, Json.str method, Json.arr params] =>
    some (KissMessage.request id method params)
  | Json.arr [Json.num 1, Json.str method, Json.arr params] =>
    some (KissMessage.notif method params)
  | Json.arr [Json.num 2, Json.num id, result] =>
    some (KissMessage.response id result)
  | Json.arr [Json.num 3, Json.num id, Json.obj fields] =>
    match Json.lookupField fields "code", Json.lookupField fields "message" with
    | some (Json.num c), some (Json.str m) =>
      match Json.lookupField fields "errorMessage" with
      | some (Json.str d) => some (KissMessage.errorResponse id ⟨c, m, some d⟩)
      | none => some (KissMessage.errorResponse id ⟨c, m, none⟩)
      | some _ => none
    | _, _ => none
  | _ => none

/-- Embedding of `generateRequestId` (src/index.ts lines 8-9): the counter
is bumped and truncated to an unsigned 32-bit value by `>>> 0`. -/
def generateRequestId (counter : Nat) : Nat :=
  (counter + 1) % 2 ^ 32

/-- Embedding of `createRequest` (src/index.ts lines 219-221); the mutable
module counter is threaded explicitly.  Returns the message and the new
counter value (which equals the fresh id). -/
def createRequest (counter : Nat) (method : String) (params : List Json) :
    KissMessage × Nat :=
  let id := generateRequestId counter
  (KissMessage.request (Int.ofNat id) method params, id)

/-- Embedding of `createResponse`. -/
def createResponse (id : Int) (data : Json) : KissMessage :=
  KissMessage.response id data

/-- Embedding of `createErrorResponse`; the last argument models the
optional `errorMessage` parameter. -/
def createErrorResponse (id : Int) (errorCode : Int) (errorReason : String)
    (errorMessage : Option String) : KissMessage :=
  KissMessage.errorResponse id ⟨errorCode, errorReason, errorMessage⟩

/-- Embedding of `createNotification`. -/
def createNotification (method : String) (params : List Json) : KissMessage :=
  KissMessage.notif method params

/-- Embedding of the `KissRpcError` value (class `KissRpcError`,
src/index.ts lines 149-162); the constructor defaults are `id = -1` and
`errorMessage` the empty string. -/
structure KissRpcError where
  code : Int
  message : String
  id : Int
  errorMessage : String
  deriving DecidableEq

/-- Observable settlement of a pending request future: the call of its
`resolve` or `reject` callback. -/
inductive Completion where
  | resolved (id : Int) (value : Json)
  | rejected (id : Int) (error : KissRpcError)
  deriving DecidableEq

/-- Outcome of applying one guard function to the parameters: normal
return, or a throw whose stringified form (`err.toString()`) is `s`. -/
inductive GuardOutcome where
  | ok
  | thrown (s : String)
  deriving DecidableEq

/-- A registered guard, modelled by its observable behaviour on a
parameter list. -/
structure Guard where
  run : List Json → GuardOutcome

/-- Observable behaviour of a handler invocation.  `value` is a returned
result with no `then` property (the `result && result.then` test fails, so
the reply is emitted synchronously); `promiseResolved` and
`promiseRejected` model a thenable result whose continuation fires
out-of-band; `thrown` models a synchronous throw with `err.message` as
payload. -/
inductive HandlerResult where
  | value (v : Json)
  | promiseResolved (v : Json)
  | promiseRejected (message : String)
  | thrown (message : String)

/-- Embedding of `DispatcherHandler`: the handler function together with
its ordered guard list. -/
structure DispatcherHandler where
  guards : List Guard
  fn : List Json → HandlerResult

/-- Association-list model of a JavaScript `Map` (`get`). -/
def mapGet {K V : Type} [DecidableEq K] : List (K × V) → K → Option V
  | [], _ => none
  | (k, v) :: rest, key => if k = key then some v else mapGet rest key

/-- Association-list model of `Map.set`: replaces in place, or appends. -/
def mapSet {K V : Type} [DecidableEq K] : List (K × V) → K → V → List (K × V)
  | [], key, val => [(key, val)]
  | (k, v) :: rest, key, val =>
    if k = key then (key, val) :: rest else (k, v) :: mapSet rest key val

/-- Association-list model of `Map.delete` (keys are unique in a `Map`, so
removing the first hit is exact). -/
def mapDel {K V : Type} [DecidableEq K] : List (K × V) → K → List (K × V)
  | [], _ => []
  | (k, v) :: rest, key => if k = key then rest else (k, v) :: mapDel rest key

/-- State of one `KissRpc` engine instance.  `hasTransport` models whether
the `toTransport` callback slot is non-null; `pending` maps a request id
to the creation timestamp of its `KissPendingRequest` (the resolve and
reject callbacks are observed through `Completion` events);
`timeoutCheckerOn` models `timeoutCheckInterval !== null`. -/
structure KissRpc where
  requestTimeout : Int
  hasTransport : Bool
  dispatcher : List (String × DispatcherHandler)
  pending : List (Int × Int)
  timeoutCheckerOn : Bool

/-- Embedding of the `KissRpc` constructor: `options?.requestTimeout ||
5000` (`0` is falsy in JavaScript and also falls back to the default). -/
def kissRpcInit (requestTimeoutOpt : Option Int) : KissRpc :=
  { requestTimeout :=
      match requestTimeoutOpt with
      | some t => if t = 0 then 5000 else t
      | none => 5000,
    hasTransport := false
    dispatcher := []
    pending := []
    timeoutCheckerOn := false }

/-- The sweep interval constant `TIMEOUT_CHECK_INTERVAL_MS`. -/
def TIMEOUT_CHECK_INTERVAL_MS : Int := 100

/-- Embedding of `registerToTransportCallback`. -/
def registerToTransportCallback (st : KissRpc) : KissRpc :=
  { st with hasTransport := true }

/-- Embedding of `registerHandler` followed by its guard registrations:
`dispatcher.set` replaces any prior entry for the method. -/
def registerHandler (st : KissRpc) (method : String) (handler : DispatcherHandler) :
    KissRpc :=
  { st with dispatcher := mapSet st.dispatcher method handler }

/-- Embedding of `callToTransport`: the list of raw messages handed to
the transport callback (empty when the slot is null; the early `return`
means a missing callback never throws). -/
def callToTransport (st : KissRpc) (m : KissMessage) : List KissMessage :=
  if st.hasTransport then [m] else []

/-- The guard loop of `handleMessage`: guards are applied one after the
other in list (registration) order inside a single `try`; the first throw
aborts the loop.  Returns how many guards were invoked and the stringified
failure of the throwing guard, if any. -/
def runGuards : List Guard → List Json → Nat × Option String
  | [], _ => (0, none)
  | g :: gs, params =>
    match g.run params with
    | GuardOutcome.thrown s => (1, some s)
    | GuardOutcome.ok =>
      let rest := runGuards gs params
      (rest.1 + 1, rest.2)

/-- Result of processing one inbound message: the successor state, the raw
messages handed to the transport, the pending-request settlements, and an
execution trace (how many guards ran, whether the handler function was
applied). -/
structure HandleResult where
  state : KissRpc
  sent : List KissMessage
  completions : List Completion
  guardsInvoked : Nat
  handlerInvoked : Bool

/-- The `Request`/`Notification` half of `handleMessage` (src/index.ts
lines 377-441).  `requestId = none` models a notification, for which
`messageId` is `-1`. -/
def handleCall (st : KissRpc) (requestId : Option Int) (method : String)
    (params : List Json) : HandleResult :=
  let messageId : Int := match requestId with | some i => i | none => -1
  let isNotif := requestId.isNone
  match mapGet st.dispatcher method with
  | none =>
    -- no handler: an ErrorResponse is sent back even for a notification
    -- (there is no isNotif test on this path in the source)
    ⟨st,
     callToTransport st (createErrorResponse messageId
       KISS_RPC_ERRORS.METHOD_NOT_FOUND.code
       KISS_RPC_ERRORS.METHOD_NOT_FOUND.message none),
     [], 0, false⟩
  | some handler =>
    match runGuards handler.guards params with
    | (k, some s) =>
      if isNotif then ⟨st, [], [], k, false⟩
      else
        ⟨st,
         callToTransport st (createErrorResponse messageId
           KISS_RPC_ERRORS.GUARD_ERROR.code
           KISS_RPC_ERRORS.GUARD_ERROR.message (some s)),
         [], k, false⟩
    | (k, none) =>
      match handler.fn params with
      | HandlerResult.value v =>
        if isNotif then ⟨st, [], [], k, true⟩
        else ⟨st, callToTransport st (createResponse messageId v), [], k, true⟩
      | HandlerResult.promiseResolved v =>
        if isNotif then ⟨st, [], [], k, true⟩
        else ⟨st, callToTransport st (createResponse messageId v), [], k, true⟩
      | HandlerResult.promiseRejected msg =>
        if isNotif then ⟨st, [], [], k, true⟩
        else
          ⟨st,
           callToTransport st (createErrorResponse messageId
             KISS_RPC_ERRORS.APPLICATION_ERROR.code
             KISS_RPC_ERRORS.APPLICATION_ERROR.message (some msg)),
           [], k, true⟩
      | HandlerResult.thrown msg =>
        if isNotif then ⟨st, [], [], k, true⟩
        else
          ⟨st,
           callToTransport st (createErrorResponse messageId
             KISS_RPC_ERRORS.APPLICATION_ERROR.code
             KISS_RPC_ERRORS.APPLICATION_ERROR.message (some msg)),
           [], k, true⟩

/-- Embedding of `handleMessage` (src/index.ts lines 370-462) on the typed
message domain (the image of `decodeMessage`).  For a `Response` or
`ErrorResponse`, a matching pending entry is deleted and its future
settled; an unmatched id falls through silently.  The reconstructed
rejection error takes the wire code and message, the message id, and the
wire detail (`error.errorMessage` is `undefined` when absent, which makes
the constructor default of the empty string apply). -/
def handleMessage (st : KissRpc) (m : KissMessage) : HandleResult :=
  match m with
  | KissMessage.request id method params => handleCall st (some id) method params
  | KissMessage.notif method params => handleCall st none method params
  | KissMessage.response id result =>
    match mapGet st.pending id with
    | some _ =>
      ⟨{ st with pending := mapDel st.pending id }, [],
       [Completion.resolved id result], 0, false⟩
    | none => ⟨st, [], [], 0, false⟩
  | KissMessage.errorResponse id e =>
    match mapGet st.pending id with
    | some _ =>
      ⟨{ st with pending := mapDel st.pending id }, [],
       [Completion.rejected id ⟨e.code, e.message, id, e.errorMessage.getD ""⟩],
       0, false⟩
    | none => ⟨st, [], [], 0, false⟩

/-- Embedding of `fromTransport` (src/index.ts lines 464-480).  A thrown
`KissRpcError` is answered with an ErrorResponse with id `-1` and
`e.errorMessage || the empty string` as detail; any other exception is
swallowed by the `instanceof` test.  A validated value outside the typed
wire layouts is not exercised by the claims under study. -/
def fromTransport (st : KissRpc) (raw : Option Json) : HandleResult :=
  match parseMessage raw with
  | DecodeResult.ok j =>
    match decodeMessage j with
    | some m => handleMessage st m
    | none => ⟨st, [], [], 0, false⟩
  | DecodeResult.rpcError c msg =>
    ⟨st, callToTransport st (createErrorResponse (-1) c msg (some "")), [], 0, false⟩
  | DecodeResult.jsError => ⟨st, [], [], 0, false⟩

/-- Embedding of `startTimeoutChecker`: a no-op when the interval is
already scheduled. -/
def startTimeoutChecker (st : KissRpc) : KissRpc :=
  if st.timeoutCheckerOn then st else { st with timeoutCheckerOn := true }

/-- Embedding of `stopTimeoutChecker`. -/
def stopTimeoutChecker (st : KissRpc) : KissRpc :=
  { st with timeoutCheckerOn := false }

/-- One firing of the sweep scheduled by `startTimeoutChecker`
(src/index.ts lines 290-314).  The source first collects every id whose
age `now - timestamp` is at least `requestTimeout`, then deletes each
collected id and rejects its future with `REQUEST_TIMEOUT`; on a map with
unique keys this amounts to the partition below.  The checker stops
itself when the table has become empty. -/
def timeoutTick (st : KissRpc) (now : Int) : KissRpc × List Completion :=
  let timedOut := st.pending.filter (fun e => decide (now - e.2 ≥ st.requestTimeout))
  let remaining := st.pending.filter (fun e => !decide (now - e.2 ≥ st.requestTimeout))
  let completions := timedOut.map (fun e =>
    Completion.rejected e.1
      ⟨KISS_RPC_ERRORS.REQUEST_TIMEOUT.code, KISS_RPC_ERRORS.REQUEST_TIMEOUT.message,
       -1, ""⟩)
  let st' := { st with pending := remaining }
  if remaining.isEmpty then (stopTimeoutChecker st', completions) else (st', completions)

/-- Embedding of `rejectPendingRequests`: rejects every pending future
with the one supplied error, clears the table and stops the sweep. -/
def rejectPendingRequests (st : KissRpc) (error : KissRpcError) :
    KissRpc × List Completion :=
  (stopTimeoutChecker { st with pending := [] },
   st.pending.map (fun e => Completion.rejected e.1 error))

/-- Embedding of `clean` (src/index.ts lines 482-492): bulk teardown with
an `INTERNAL_ERROR` carrying the reason, dispatcher reset, sweep stop and
transport detach. -/
def clean (st : KissRpc) (reason : String) : KissRpc × List Completion :=
  let r := rejectPendingRequests st
    ⟨KISS_RPC_ERRORS.INTERNAL_ERROR.code, KISS_RPC_ERRORS.INTERNAL_ERROR.message,
     -1, reason⟩
  ({ r.1 with dispatcher := [], hasTransport := false }, r.2)

/-- Embedding of `request` (src/index.ts lines 337-356): builds the
request via `createRequest` (threading the id counter), inserts the
pending entry with the current timestamp, lazily starts the sweep when
the table just became non-empty, and hands the message to the transport.
Returns the new state, the new counter value (also the fresh id) and the
raw messages handed to the transport. -/
def request (st : KissRpc) (counter : Nat) (method : String) (params : List Json)
    (now : Int) : KissRpc × Nat × List KissMessage :=
  let created := createRequest counter method params
  let id : Int := Int.ofNat created.2
  let st1 := { st with pending := mapSet st.pending id now }
  let st2 := if st1.pending.length = 1 then startTimeoutChecker st1 else st1
  (st2, created.2, callToTransport st2 created.1)

/-- Embedding of `notify` (src/index.ts lines 358-363). -/
def notify (st : KissRpc) (method : String) (params : List Json) : List KissMessage :=
  callToTransport st (createNotification method params)

/-! ### Concrete fixtures used to instantiate the theorems -/

/-- A handler with no guards that returns `null`. -/
def logHandler : DispatcherHandler := ⟨[], fun _ => HandlerResult.value Json.null⟩

/-- An engine with a transport attached and `logHandler` registered for
the method `log`. -/
def stWithLog : KissRpc :=
  registerHandler (registerToTransportCallback (kissRpcInit none)) "log" logHandler

/-- A guard that passes. -/
def okGuard : Guard := ⟨fun _ => GuardOutcome.ok⟩

/-- A guard that throws; its stringified failure is the given text. -/
def failingGuard : Guard := ⟨fun _ => GuardOutcome.thrown "Error: unauthorized"⟩

/-- A handler guarded by a passing guard, then a throwing guard, then a
further guard that must never run. -/
def secureHandler : DispatcherHandler :=
  ⟨[okGuard, failingGuard, okGuard], fun _ => HandlerResult.value Json.null⟩

/-- An engine with a transport attached and `secureHandler` registered for
the method `secure`. -/
def stSecure : KissRpc :=
  registerHandler (registerToTransportCallback (kissRpcInit none)) "secure" secureHandler

/-- An engine with one pending request, id 7 created at time 100. -/
def stPend : KissRpc :=
  { requestTimeout := 5000, hasTransport := true, dispatcher := [],
    pending := [(7, 100)], timeoutCheckerOn := true }

/-! ### Helper lemmas about the association-list map model -/

lemma mapGet_eq_none_iff {K V : Type} [DecidableEq K] (l : List (K × V)) (k : K) :
    mapGet l k = none ↔ ∀ v, (k, v) ∉ l := by
  induction l with
  | nil => simp [mapGet]
  | cons hd tl ih =>
    obtain ⟨k', v'⟩ := hd
    by_cases hk : k' = k
    · subst hk
      simp only [mapGet, if_pos rfl]
      constructor
      · intro h
        exact Option.noConfusion h
      · intro h
        exact absurd (List.mem_cons_self (k', v') tl) (h v')
    · simp only [mapGet, if_neg hk, ih]
      constructor
      · intro h v hmem
        rcases List.mem_cons.mp hmem with heq | htl
        · exact hk (by cases heq; rfl)
        · exact h v htl
      · intro h v htl
        exact h v (List.mem_cons_of_mem _ htl)

lemma mapGet_of_mem_nodup {K V : Type} [DecidableEq K] {l : List (K × V)} {k : K}
    {v : V} (hnd : (l.map Prod.fst).Nodup) (hmem : (k, v) ∈ l) :
    mapGet l k = some v := by
  induction l with
  | nil => cases hmem
  | cons hd tl ih =>
    obtain ⟨k', v'⟩ := hd
    rcases List.mem_cons.mp hmem with heq | htl
    · cases heq
      simp [mapGet]
    · have hk : k' ≠ k := by
        intro h
        subst h
        have : k' ∈ tl.map Prod.fst := List.mem_map.mpr ⟨(k', v), htl, rfl⟩
        exact (List.nodup_cons.mp hnd).1 this
      simp only [mapGet, if_neg hk]
      exact ih (List.nodup_cons.mp hnd).2 htl

lemma mem_mapSet_self {K V : Type} [DecidableEq K] (l : List (K × V)) (k : K) (v : V) :
    (k, v) ∈ mapSet l k v := by
  induction l with
  | nil => simp [mapSet]
  | cons hd tl ih =>
    obtain ⟨k', v'⟩ := hd
    by_cases hk : k' = k
    · simp [mapSet, hk]
    · simp only [mapSet, if_neg hk]
      exact List.mem_cons_of_mem _ ih

lemma mapValue_unique {K V : Type} {l : List (K × V)} {k : K} {v1 v2 : V}
    (hnd : (l.map Prod.fst).Nodup) (h1 : (k, v1) ∈ l) (h2 : (k, v2) ∈ l) :
    v1 = v2 := by
  induction l with
  | nil => cases h1
  | cons hd tl ih =>
    have hnd' : (hd.fst :: tl.map Prod.fst).Nodup := by simpa using hnd
    have hhead := (List.nodup_cons.mp hnd').1
    have htl := (List.nodup_cons.mp hnd').2
    rcases List.mem_cons.mp h1 with e1 | m1 <;> rcases List.mem_cons.mp h2 with e2 | m2
    · rw [← e1] at e2
      exact (Prod.ext_iff.mp e2).2.symm
    · exfalso
      rw [← e1] at hhead
      exact hhead (List.mem_map.mpr ⟨(k, v2), m2, rfl⟩)
    · exfalso
      rw [← e2] at hhead
      exact hhead (List.mem_map.mpr ⟨(k, v1), m1, rfl⟩)
    · exact ih htl m1 m2

lemma mapGet_mapDel_self {K V : Type} [DecidableEq K] (l : List (K × V)) (k : K)
    (hnd : (l.map Prod.fst).Nodup) : mapGet (mapDel l k) k = none := by
  induction l with
  | nil => simp [mapDel, mapGet]
  | cons hd tl ih =>
    obtain ⟨k', v'⟩ := hd
    by_cases hk : k' = k
    · subst hk
      simp only [mapDel, if_pos rfl]
      rw [mapGet_eq_none_iff]
      intro v hmem
      exact (List.nodup_cons.mp hnd).1 (List.mem_map.mpr ⟨(k', v), hmem, rfl⟩)
    · simp only [mapDel, if_neg hk, mapGet, if_neg hk]
      exact ih (List.nodup_cons.mp hnd).2

/-! ### Helper lemmas about the guard loop -/

lemma runGuards_all_ok (gs : List Guard) (params : List Json)
    (h : ∀ g ∈ gs, g.run params = GuardOutcome.ok) :
    runGuards gs params = (gs.length, none) := by
  induction gs with
  | nil => rfl
  | cons g rest ih =>
    have hg := h g (List.mem_cons_self g rest)
    simp only [runGuards, hg, ih (fun g' hg' => h g' (List.mem_cons_of_mem _ hg')),
      List.length_cons]

lemma runGuards_first_thrown (gs : List Guard) (params : List Json) (k : Nat)
    (s : String) (hk : k < gs.length)
    (hok : ∀ i (hi : i < k), (gs.get ⟨i, Nat.lt_trans hi hk⟩).run params = GuardOutcome.ok)
    (hth : (gs.get ⟨k, hk⟩).run params = GuardOutcome.thrown s) :
    runGuards gs params = (k + 1, some s) := by
  induction gs generalizing k with
  | nil => cases hk
  | cons g rest ih =>
    cases k with
    | zero =>
      simp only [List.get] at hth
      simp [runGuards, hth]
    | succ k' =>
      have hg : g.run params = GuardOutcome.ok := hok 0 (Nat.succ_pos k')
      have hk' : k' < rest.length := Nat.lt_of_succ_lt_succ hk
      have hok' : ∀ i (hi : i < k'),
          (rest.get ⟨i, Nat.lt_trans hi hk'⟩).run params = GuardOutcome.ok := by
        intro i hi
        exact hok (i + 1) (Nat.succ_lt_succ hi)
      have hth' : (rest.get ⟨k', hk'⟩).run params = GuardOutcome.thrown s := hth
      simp [runGuards, hg, ih k' hk' hok' hth']

/-! ### Helper lemmas about the sweep and request insertion -/

lemma timeoutTick_pending (st : KissRpc) (now : Int) :
    (timeoutTick st now).1.pending =
      st.pending.filter (fun e => !decide (now - e.2 ≥ st.requestTimeout)) := by
  unfold timeoutTick
  dsimp only
  split <;> rfl

lemma timeoutTick_completions (st : KissRpc) (now : Int) :
    (timeoutTick st now).2 =
      (st.pending.filter (fun e => decide (now - e.2 ≥ st.requestTimeout))).map
        (fun e => Completion.rejected e.1
          ⟨KISS_RPC_ERRORS.REQUEST_TIMEOUT.code,
           KISS_RPC_ERRORS.REQUEST_TIMEOUT.message, -1, ""⟩) := by
  unfold timeoutTick
  dsimp only
  split <;> rfl

lemma request_hasTransport (st : KissRpc) (counter : Nat) (method : String)
    (params : List Json) (now : Int) :
    (request st counter method params now).1.hasTransport = st.hasTransport := by
  unfold request startTimeoutChecker
  dsimp only
  split <;> (try split) <;> rfl

lemma request_pending (st : KissRpc) (counter : Nat) (method : String)
    (params : List Json) (now : Int) :
    (request st counter method params now).1.pending =
      mapSet st.pending (Int.ofNat (generateRequestId counter)) now := by
  unfold request createRequest startTimeoutChecker
  dsimp only
  split <;> (try split) <;> rfl

lemma request_requestTimeout (st : KissRpc) (counter : Nat) (method : String)
    (params : List Json) (now : Int) :
    (request st counter method params now).1.requestTimeout = st.requestTimeout := by
  unfold request startTimeoutChecker
  dsimp only
  split <;> (try split) <;> rfl

lemma request_sent (st : KissRpc) (counter : Nat) (method : String)
    (params : List Json) (now : Int) :
    (request st counter method params now).2.2 =
      callToTransport (request st counter method params now).1
        (createRequest counter method params).1 := by
  unfold request
  dsimp only

/-! ### Helper lemma about iterating the id counter -/

lemma generateRequestId_iterate (c0 : Nat) (n : Nat) (hn : 1 ≤ n) :
    generateRequestId^[n] c0 = (c0 + n) % 2 ^ 32 := by
  induction n with
  | zero => cases hn
  | succ m ih =>
    rcases Nat.eq_zero_or_pos m with hm | hm
    · subst hm
      rfl
    · rw [Function.iterate_succ_apply', ih hm]
      show ((c0 + m) % 2 ^ 32 + 1) % 2 ^ 32 = (c0 + (m + 1)) % 2 ^ 32
      have h32 : (2 : ℕ) ^ 32 = 4294967296 := by norm_num
      rw [h32]
      omega

/-! ### Claim theorems -/

/-- C9: the request id generator is a process-local unsigned counter: a
fresh id equals the previous counter value plus one, reduced modulo
2 to the 32 (the `>>> 0` truncation); ids increase strictly between
wraps, the counter wraps to 0 at the 32-bit width, and any two ids drawn
within a window of fewer than 2 to the 32 draws are distinct (uniqueness
among in-flight requests), while ids repeat across a full wrap (not
globally unique). -/
theorem requestId_counter_spec :
    (∀ c, generateRequestId c = (c + 1) % 2 ^ 32) ∧
    (∀ c, c + 1 < 2 ^ 32 → generateRequestId c = c + 1 ∧ c < generateRequestId c) ∧
    generateRequestId (2 ^ 32 - 1) = 0 ∧
    (∀ c0 i j, 1 ≤ i → i < j → j - i < 2 ^ 32 →
      generateRequestId^[i] c0 ≠ generateRequestId^[j] c0) := by
  refine ⟨fun c => rfl, fun c h => ?_, by norm_num [generateRequestId],
    fun c0 i j hi hij hw => ?_⟩
  · have heq : generateRequestId c = c + 1 := by
      show (c + 1) % 2 ^ 32 = c + 1
      have h32 : (2 : ℕ) ^ 32 = 4294967296 := by norm_num
      rw [h32] at h ⊢
      omega
    exact ⟨heq, by omega⟩
  · rw [generateRequestId_iterate c0 i hi,
      generateRequestId_iterate c0 j (le_of_lt (Nat.lt_of_le_of_lt hi hij))]
    have h32 : (2 : ℕ) ^ 32 = 4294967296 := by norm_num
    rw [h32] at hw ⊢
    omega

/-- Witness for C9 at concrete inputs: 41 + 1 = 42, the wrap at the top of
the 32-bit range, and distinctness of the first and second generated
ids. -/
theorem requestId_counter_spec_witness :
    generateRequestId 41 = 42 ∧ generateRequestId (2 ^ 32 - 1) = 0 ∧
    generateRequestId^[1] 0 ≠ generateRequestId^[2] 0 :=
  ⟨(requestId_counter_spec.2.1 41 (by norm_num)).1,
   requestId_counter_spec.2.2.1,
   requestId_counter_spec.2.2.2 0 1 2 (by norm_num) (by norm_num) (by norm_num)⟩

/-- C7: decoding the encoded wire form of any valid typed message value
yields the value back: the encoded array passes validation unchanged
through `parseMessage`, and the typed reading recovers the original
message (round-trip identity through the JSON envelope). -/
theorem decode_encode_roundtrip (x : KissMessage) :
    parseMessage (some (encodeMessage x)) = DecodeResult.ok (encodeMessage x) ∧
    decodeMessage (encodeMessage x) = some x := by
  cases x with
  | request id method params => exact ⟨rfl, rfl⟩
  | response id result => exact ⟨rfl, rfl⟩
  | notif method params => exact ⟨rfl, rfl⟩
  | errorResponse id e =>
    obtain ⟨c, m, em⟩ := e
    cases em with
    | none => exact ⟨rfl, rfl⟩
    | some d => exact ⟨rfl, rfl⟩

/-- C5: evaluation of the decoder at the parseable input
`[3, 1, null]`.  The spec demands INVALID_REQUEST (1001) for every
parseable value violating the shape invariants, but on this input the
validator passes the `typeof message[2] !== 'object'` guard (since
`typeof null === 'object'` in JavaScript) and then throws a `TypeError`
reading `message[2].code`, so decode fails with an uncorrelated runtime
exception instead of error code 1001. -/
theorem parse_null_error_slot_bug :
    parseMessage (some (Json.arr [Json.num 3, Json.num 1, Json.null])) =
      DecodeResult.jsError ∧
    parseMessage (some (Json.arr [Json.num 3, Json.num 1, Json.null])) ≠
      DecodeResult.rpcError KISS_RPC_ERRORS.INVALID_REQUEST.code
        KISS_RPC_ERRORS.INVALID_REQUEST.message := by
  decide

/-- C8: when decode of an inbound raw string fails before any request id
can be correlated, the engine answers with an ErrorResponse with id -1
carrying the failure code and message (PARSE_ERROR for syntactically
invalid input, INVALID_REQUEST for an invalid shape), while a
non-KissRpcError exception produces no reply at all. -/
theorem fromTransport_decode_failure_replies (st : KissRpc)
    (hT : st.hasTransport = true) :
    (fromTransport st none).sent =
      [createErrorResponse (-1) KISS_RPC_ERRORS.PARSE_ERROR.code
        KISS_RPC_ERRORS.PARSE_ERROR.message (some "")] ∧
    (∀ j, isMessage j = some false →
      (fromTransport st (some j)).sent =
        [createErrorResponse (-1) KISS_RPC_ERRORS.INVALID_REQUEST.code
          KISS_RPC_ERRORS.INVALID_REQUEST.message (some "")]) ∧
    (∀ j, isMessage j = none → (fromTransport st (some j)).sent = []) := by
  refine ⟨?_, fun j hj => ?_, fun j hj => ?_⟩
  · simp [fromTransport, parseMessage, callToTransport, hT]
  · simp [fromTransport, parseMessage, hj, callToTransport, hT]
  · simp [fromTransport, parseMessage, hj]

/-- Witness for C8: a fresh engine with a transport callback attached,
fed an unparseable document, replies with the PARSE_ERROR response with
id -1. -/
theorem fromTransport_decode_failure_replies_witness :
    (registerToTransportCallback (kissRpcInit none)).hasTransport = true ∧
    (fromTransport (registerToTransportCallback (kissRpcInit none)) none).sent =
      [createErrorResponse (-1) KISS_RPC_ERRORS.PARSE_ERROR.code
        KISS_RPC_ERRORS.PARSE_ERROR.message (some "")] :=
  ⟨rfl,
   (fromTransport_decode_failure_replies
     (registerToTransportCallback (kissRpcInit none)) rfl).1⟩

/-- C1 counterexample: an inbound Notification whose method has no
registered handler is not silently dropped: the engine hands an outbound
message to the transport (the METHOD_NOT_FOUND path of `handleMessage`
carries no notification test). -/
theorem methodNotFound_notif_counterexample :
    (handleMessage (registerToTransportCallback (kissRpcInit none))
        (KissMessage.notif "missing" [])).sent =
      [createErrorResponse (-1) KISS_RPC_ERRORS.METHOD_NOT_FOUND.code
        KISS_RPC_ERRORS.METHOD_NOT_FOUND.message none] ∧
    [createErrorResponse (-1) KISS_RPC_ERRORS.METHOD_NOT_FOUND.code
        KISS_RPC_ERRORS.METHOD_NOT_FOUND.message none] ≠ ([] : List KissMessage) := by
  decide

/-- C1 amended: for an inbound Request whose method has no registered
handler the engine emits an ErrorResponse with code 1002
(METHOD_NOT_FOUND) carrying the original request id; for an inbound
Notification whose method has no registered handler the engine likewise
emits a METHOD_NOT_FOUND ErrorResponse, carrying id -1 (it is not
silently dropped); in both cases no future settles and the state is
unchanged. -/
theorem methodNotFound_replies (st : KissRpc) (id : Int) (method : String)
    (params : List Json) (hT : st.hasTransport = true)
    (hm : mapGet st.dispatcher method = none) :
    KISS_RPC_ERRORS.METHOD_NOT_FOUND.code = 1002 ∧
    handleMessage st (KissMessage.request id method params) =
      ⟨st, [createErrorResponse id KISS_RPC_ERRORS.METHOD_NOT_FOUND.code
        KISS_RPC_ERRORS.METHOD_NOT_FOUND.message none], [], 0, false⟩ ∧
    handleMessage st (KissMessage.notif method params) =
      ⟨st, [createErrorResponse (-1) KISS_RPC_ERRORS.METHOD_NOT_FOUND.code
        KISS_RPC_ERRORS.METHOD_NOT_FOUND.message none], [], 0, false⟩ := by
  refine ⟨rfl, ?_, ?_⟩ <;>
    simp [handleMessage, handleCall, hm, callToTransport, hT]

/-- Witness for C1 (amended) on a fresh engine with a transport attached
and an empty dispatcher. -/
theorem methodNotFound_replies_witness :
    (registerToTransportCallback (kissRpcInit none)).hasTransport = true ∧
    mapGet (registerToTransportCallback (kissRpcInit none)).dispatcher "missing" = none ∧
    handleMessage (registerToTransportCallback (kissRpcInit none))
        (KissMessage.request 7 "missing" []) =
      ⟨registerToTransportCallback (kissRpcInit none),
       [createErrorResponse 7 KISS_RPC_ERRORS.METHOD_NOT_FOUND.code
         KISS_RPC_ERRORS.METHOD_NOT_FOUND.message none], [], 0, false⟩ :=
  ⟨rfl, rfl,
   (methodNotFound_replies (registerToTransportCallback (kissRpcInit none))
     7 "missing" [] rfl rfl).2.1⟩

/-- C2 counterexample: an inbound Notification can make the engine emit an
outbound message, namely when its method is unregistered. -/
theorem notif_silent_counterexample :
    (handleMessage (registerToTransportCallback (kissRpcInit none))
        (KissMessage.notif "log" [Json.str "hi"])).sent ≠ [] := by
  decide

/-- C2 amended: for every inbound Notification whose method is registered,
the engine emits no outbound message and settles no future, whatever the
guards and the handler do (pass, throw, resolve or reject, synchronously
or asynchronously), and the state is unchanged; a Notification whose
method is unregistered, however, triggers a METHOD_NOT_FOUND
ErrorResponse with id -1. -/
theorem notif_registered_silent (st : KissRpc) (method : String)
    (params : List Json) (handler : DispatcherHandler)
    (hm : mapGet st.dispatcher method = some handler) :
    (handleMessage st (KissMessage.notif method params)).sent = [] ∧
    (handleMessage st (KissMessage.notif method params)).completions = [] ∧
    (handleMessage st (KissMessage.notif method params)).state = st := by
  simp only [handleMessage, handleCall, hm]
  rcases hrg : runGuards handler.guards params with ⟨k, sOpt⟩
  cases sOpt with
  | some s => simp [hrg]
  | none => cases hfn : handler.fn params <;> simp [hrg, hfn]

/-- Witness for C2 (amended): a registered `log` notification produces no
outbound message. -/
theorem notif_registered_silent_witness :
    mapGet stWithLog.dispatcher "log" = some logHandler ∧
    (handleMessage stWithLog (KissMessage.notif "log" [Json.str "hi"])).sent = [] :=
  ⟨rfl, (notif_registered_silent stWithLog "log" [Json.str "hi"] logHandler rfl).1⟩

/-- C4: guards run strictly in registration order: if the guards before
position k all pass and the guard at position k throws with stringified
failure s, then exactly the first k + 1 guards are invoked (the remaining
guards and the handler never run), and a Request is answered with an
ErrorResponse carrying code 1006 (GUARD_ERROR), the original request id
and detail equal to s, while a Notification is dropped. -/
theorem guard_pipeline_order_and_abort (st : KissRpc) (id : Int)
    (method : String) (params : List Json) (handler : DispatcherHandler)
    (k : Nat) (s : String) (hT : st.hasTransport = true)
    (hm : mapGet st.dispatcher method = some handler)
    (hk : k < handler.guards.length)
    (hok : ∀ i (hi : i < k),
      (handler.guards.get ⟨i, Nat.lt_trans hi hk⟩).run params = GuardOutcome.ok)
    (hth : (handler.guards.get ⟨k, hk⟩).run params = GuardOutcome.thrown s) :
    KISS_RPC_ERRORS.GUARD_ERROR.code = 1006 ∧
    handleMessage st (KissMessage.request id method params) =
      ⟨st, [createErrorResponse id KISS_RPC_ERRORS.GUARD_ERROR.code
        KISS_RPC_ERRORS.GUARD_ERROR.message (some s)], [], k + 1, false⟩ ∧
    handleMessage st (KissMessage.notif method params) =
      ⟨st, [], [], k + 1, false⟩ := by
  have hrg := runGuards_first_thrown handler.guards params k s hk hok hth
  refine ⟨rfl, ?_, ?_⟩ <;>
    simp [handleMessage, handleCall, hm, hrg, callToTransport, hT]

/-- Witness for C4: of three registered guards the second throws, so
exactly two are invoked, the third and the handler never run, and the
reply is the GUARD_ERROR ErrorResponse with the request id and the
stringified failure as detail. -/
theorem guard_pipeline_order_and_abort_witness :
    stSecure.hasTransport = true ∧
    mapGet stSecure.dispatcher "secure" = some secureHandler ∧
    handleMessage stSecure (KissMessage.request 5 "secure" []) =
      ⟨stSecure, [createErrorResponse 5 KISS_RPC_ERRORS.GUARD_ERROR.code
        KISS_RPC_ERRORS.GUARD_ERROR.message (some "Error: unauthorized")],
       [], 2, false⟩ :=
  ⟨rfl, rfl,
   (guard_pipeline_order_and_abort stSecure 5 "secure" [] secureHandler 1
     "Error: unauthorized" rfl rfl (by decide)
     (fun i hi => by
       have h0 : i = 0 := by omega
       subst h0
       rfl)
     rfl).2.1⟩

/-- C3: a Response whose id matches a pending entry removes the entry and
resolves its future with the carried result; a matching ErrorResponse
removes the entry and rejects its future with a KissRpcError
reconstructed from the wire code, message and detail; deletion really
evicts the id from the table; and a reply whose id matches no pending
entry leaves the table unchanged and settles nothing. -/
theorem pending_settlement (st : KissRpc) (id : Int) (ts : Int)
    (result : Json) (e : KissErr) :
    (mapGet st.pending id = some ts →
      handleMessage st (KissMessage.response id result) =
        ⟨{ st with pending := mapDel st.pending id }, [],
         [Completion.resolved id result], 0, false⟩) ∧
    (mapGet st.pending id = some ts →
      handleMessage st (KissMessage.errorResponse id e) =
        ⟨{ st with pending := mapDel st.pending id }, [],
         [Completion.rejected id ⟨e.code, e.message, id, e.errorMessage.getD ""⟩],
         0, false⟩) ∧
    ((st.pending.map Prod.fst).Nodup → mapGet (mapDel st.pending id) id = none) ∧
    (mapGet st.pending id = none →
      handleMessage st (KissMessage.response id result) = ⟨st, [], [], 0, false⟩ ∧
      handleMessage st (KissMessage.errorResponse id e) = ⟨st, [], [], 0, false⟩) := by
  refine ⟨fun h => ?_, fun h => ?_, fun h => mapGet_mapDel_self _ _ h,
    fun h => ⟨?_, ?_⟩⟩ <;> simp [handleMessage, h]

/-- Witness for C3: the pending request with id 7 is resolved by a
matching Response and evicted from the table. -/
theorem pending_settlement_witness :
    mapGet stPend.pending 7 = some 100 ∧
    handleMessage stPend (KissMessage.response 7 (Json.num 42)) =
      ⟨{ stPend with pending := mapDel stPend.pending 7 }, [],
       [Completion.resolved 7 (Json.num 42)], 0, false⟩ :=
  ⟨rfl, (pending_settlement stPend 7 100 (Json.num 42) ⟨0, "", none⟩).1 rfl⟩

/-- C6: a firing of the background sweep at time `now` evicts and rejects
with code 1005 (REQUEST_TIMEOUT) exactly the pending entries whose age
`now - timestamp` has reached the configured timeout: an aged entry is
rejected and removed, a younger entry is neither rejected nor touched.
The default per-request timeout is 5000 time-units and the sweep interval
constant is 100 time-units. -/
theorem timeout_sweep_spec (st : KissRpc) (now id ts : Int)
    (hnd : (st.pending.map Prod.fst).Nodup) (hmem : (id, ts) ∈ st.pending) :
    (now - ts ≥ st.requestTimeout →
      Completion.rejected id ⟨KISS_RPC_ERRORS.REQUEST_TIMEOUT.code,
        KISS_RPC_ERRORS.REQUEST_TIMEOUT.message, -1, ""⟩ ∈ (timeoutTick st now).2 ∧
      mapGet (timeoutTick st now).1.pending id = none) ∧
    (now - ts < st.requestTimeout →
      (∀ err : KissRpcError, Completion.rejected id err ∉ (timeoutTick st now).2) ∧
      (id, ts) ∈ (timeoutTick st now).1.pending) ∧
    KISS_RPC_ERRORS.REQUEST_TIMEOUT.code = 1005 ∧
    (kissRpcInit none).requestTimeout = 5000 ∧
    TIMEOUT_CHECK_INTERVAL_MS = 100 := by
  refine ⟨fun hage => ⟨?_, ?_⟩, fun hage => ⟨?_, ?_⟩, rfl, rfl, rfl⟩
  · rw [timeoutTick_completions]
    exact List.mem_map.mpr
      ⟨(id, ts), List.mem_filter.mpr ⟨hmem, by simpa using hage⟩, rfl⟩
  · rw [timeoutTick_pending, mapGet_eq_none_iff]
    intro v hv
    have hvp := (List.mem_filter.mp hv).1
    have hpred := (List.mem_filter.mp hv).2
    have hvts : v = ts := mapValue_unique hnd hvp hmem
    subst hvts
    simp only [Bool.not_eq_true', decide_eq_false_iff_not] at hpred
    exact hpred hage
  · intro err hmemc
    rw [timeoutTick_completions] at hmemc
    obtain ⟨e, hef, heq⟩ := List.mem_map.mp hmemc
    injection heq with h1 h2
    have hep := (List.mem_filter.mp hef).1
    have hpred := (List.mem_filter.mp hef).2
    have hpair : (id, e.2) = e := by
      rw [← h1]
    have hets : e.2 = ts := mapValue_unique hnd (hpair ▸ hep) hmem
    rw [hets] at hpred
    simp only [decide_eq_true_eq] at hpred
    omega
  · rw [timeoutTick_pending]
    refine List.mem_filter.mpr ⟨hmem, ?_⟩
    simp only [Bool.not_eq_true', decide_eq_false_iff_not]
    omega

/-- Witness for C6: in an engine whose single pending request (id 7) was
created at time 100 with timeout 5000, the sweep firing at time 5100
rejects it with REQUEST_TIMEOUT. -/
theorem timeout_sweep_spec_witness :
    (stPend.pending.map Prod.fst).Nodup ∧
    ((7 : Int), (100 : Int)) ∈ stPend.pending ∧
    Completion.rejected 7 ⟨KISS_RPC_ERRORS.REQUEST_TIMEOUT.code,
      KISS_RPC_ERRORS.REQUEST_TIMEOUT.message, -1, ""⟩ ∈ (timeoutTick stPend 5100).2 :=
  ⟨by decide, by decide,
   ((timeout_sweep_spec stPend 5100 7 100 (by decide) (by decide)).1 (by decide)).1⟩

/-- C10: with no transport callback registered, every emission is
silently skipped: `request` hands nothing to the wire but still inserts
its pending entry (timestamped now, keyed by the fresh id) and turns the
timeout checker on when the table was empty; `notify` and every reply
emission produce nothing; and the inserted entry still settles through
the timeout sweep once aged, or through bulk teardown (`clean`), which
rejects it with INTERNAL_ERROR carrying the teardown reason. -/
theorem no_transport_spec (st : KissRpc) (counter : Nat) (method : String)
    (params : List Json) (now now2 : Int) (reason : String) (m : KissMessage)
    (hT : st.hasTransport = false) :
    (request st counter method params now).2.2 = [] ∧
    (request st counter method params now).1.pending =
      mapSet st.pending (Int.ofNat (generateRequestId counter)) now ∧
    (st.pending = [] →
      (request st counter method params now).1.timeoutCheckerOn = true) ∧
    notify st method params = [] ∧
    callToTransport st m = [] ∧
    (now2 - now ≥ st.requestTimeout →
      Completion.rejected (Int.ofNat (generateRequestId counter))
        ⟨KISS_RPC_ERRORS.REQUEST_TIMEOUT.code,
         KISS_RPC_ERRORS.REQUEST_TIMEOUT.message, -1, ""⟩ ∈
        (timeoutTick (request st counter method params now).1 now2).2) ∧
    Completion.rejected (Int.ofNat (generateRequestId counter))
      ⟨KISS_RPC_ERRORS.INTERNAL_ERROR.code, KISS_RPC_ERRORS.INTERNAL_ERROR.message,
       -1, reason⟩ ∈ (clean (request st counter method params now).1 reason).2 := by
  refine ⟨?_, request_pending st counter method params now, fun hempty => ?_,
    ?_, ?_, fun hage => ?_, ?_⟩
  · rw [request_sent]
    simp [callToTransport, request_hasTransport, hT]
  · unfold request createRequest startTimeoutChecker
    dsimp only
    rw [hempty]
    simp [mapSet]
    split <;> simp_all
  · simp [notify, callToTransport, hT]
  · simp [callToTransport, hT]
  · rw [timeoutTick_completions]
    refine List.mem_map.mpr
      ⟨(Int.ofNat (generateRequestId counter), now), List.mem_filter.mpr ⟨?_, ?_⟩, rfl⟩
    · rw [request_pending]
      exact mem_mapSet_self _ _ _
    · simp only [request_requestTimeout, decide_eq_true_eq]
      exact hage
  · simp only [clean, rejectPendingRequests]
    refine List.mem_map.mpr
      ⟨(Int.ofNat (generateRequestId counter), now), ?_, rfl⟩
    rw [request_pending]
    exact mem_mapSet_self _ _ _

/-- Witness for C10: a fresh engine (no transport attached) sends nothing
on `request` yet starts the timeout checker. -/
theorem no_transport_spec_witness :
    (kissRpcInit none).hasTransport = false ∧
    (request (kissRpcInit none) 0 "add" [] 0).2.2 = [] ∧
    (request (kissRpcInit none) 0 "add" [] 0).1.timeoutCheckerOn = true :=
  ⟨rfl,
   (no_transport_spec (kissRpcInit none) 0 "add" [] 0 5000 "shutdown"
     (KissMessage.notif "x" []) rfl).1,
   (no_transport_spec (kissRpcInit none) 0 "add" [] 0 5000 "shutdown"
     (KissMessage.notif "x" []) rfl).2.2.1 rfl⟩
